import Mathlib

/-!
Verification of the engine-factory / channel core (pi_vm): a shallow
embedding of src/src/pi_vm_impl.rs and src/src/channel_map.rs.

Engines (Arc<JS>) are opaque FFI handles; we model an engine by the record
of arguments its construction received, and each FFI interaction by an
explicit trace event.  Atomic counters are modelled by plain naturals with
the sequential semantics of the source's operations.  Fallible FFI calls
(JS::new, load, new_global_template, alloc_global) are resolved by an
oracle indexed by the allocation id of the engine being built, so one
oracle value fixes the outcome of every construction in a run.
-/

/-- A bytecode blob (Vec<u8>); byte values are irrelevant to the claims, so
any list of naturals stands for one. -/
abbrev Code := List Nat

/-- Outcomes of the fallible engine-side FFI calls made while constructing a
virtual machine, indexed by the allocation id passed to JS::new. -/
structure EngineOracle where
  jsNew : Nat → Bool
  loadOk : Nat → Code → Bool
  newGlobalTemplate : Nat → Bool
  allocGlobal : Nat → Bool

/-- FFI calls a factory operation performs, recorded as a trace. -/
inductive FfiCall where
  | jsNew (allocId : Nat) (owner : String) (maxHeap : Nat) (hasReuse : Bool)
  | load (allocId : Nat) (code : Code)
  | waitRan (allocId : Nat)
  | newGlobalTemplate (allocId : Nat)
  | allocGlobal (allocId : Nat)
  | unlockCollection (allocId : Nat)
deriving DecidableEq

/-- An engine as the core observes it: the arguments JS::new received. -/
structure Engine where
  id : Nat
  owner : String
  maxHeap : Nat
  hasReuse : Bool
deriving DecidableEq

/-- VMFactory (pi_vm_impl.rs): name, capacity, the two atomic counters, the
heap bound, the bytecode list, and the bounded free queue of engines.
codesAliases counts the other live references to the codes Arc (clones of
the factory, outstanding loaders): Arc::get_mut in append succeeds exactly
when it is zero.  freeLen is the number of engines in the free queue and
queueBound its bound (the argument given to bounded). -/
structure VMFactory where
  name : String
  capacity : Nat
  size : Nat
  allocId : Nat
  maxHeapSize : Nat
  codes : List Code
  codesAliases : Nat
  freeLen : Nat
  queueBound : Nat
deriving DecidableEq

/-- VMFactory::new: capacity is the requested size, the queue bound is
max(size, 1), both counters start at zero and the code list is empty. -/
def VMFactory.new (name : String) (size maxHeapSize : Nat) : VMFactory :=
  { name := name
    capacity := size
    size := 0
    allocId := 0
    maxHeapSize := maxHeapSize
    codes := []
    codesAliases := 0
    freeLen := 0
    queueBound := if size = 0 then 1 else size }

/-- VMFactory::append: Arc::get_mut(codes) returns Some exactly when the
codes Arc is uniquely referenced; only then is the blob pushed, otherwise
the factory is returned unchanged. -/
def VMFactory.append (f : VMFactory) (code : Code) : VMFactory :=
  if f.codesAliases = 0 then { f with codes := f.codes ++ [code] } else f

/-- Clone for VMFactory (derive(Clone)): both resulting values share the
codes Arc with one more holder than before. -/
def VMFactory.cloneF (f : VMFactory) : VMFactory × VMFactory :=
  ({ f with codesAliases := f.codesAliases + 1 },
   { f with codesAliases := f.codesAliases + 1 })

/-- Loading loop of VMFactory::new_vm over the code list: vm.load(code)
acknowledged means busy-wait until is_ran then continue with the next blob;
a rejected load aborts (new_vm returns None there). -/
def loadCodes (o : EngineOracle) (id : Nat) : List Code → Bool × List Nat × List FfiCall
  | [] => (true, [], [])
  | c :: rest =>
    if o.loadOk id c then
      match loadCodes o id rest with
      | (ok, loaded, tr) => (ok, c.length :: loaded, FfiCall.load id c :: FfiCall.waitRan id :: tr)
    else (false, [], [FfiCall.load id c])

/-- Body of VMFactory::new_vm after the size reservation: fetch-add the
allocation id, call JS::new (reuse slot exactly when capacity is nonzero),
load every blob, and for pooled factories create the global template,
allocate the global and unlock the collector.  Every failure returns none
with the state as it stands (no counter is rolled back). -/
def newVmBuild (o : EngineOracle) (f : VMFactory) : Option Engine × VMFactory × List FfiCall :=
  let id := f.allocId
  let f2 := { f with allocId := id + 1 }
  let hasReuse := f.capacity != 0
  let tr0 := [FfiCall.jsNew id f.name f.maxHeapSize hasReuse]
  if o.jsNew id then
    match loadCodes o id f2.codes with
    | (true, _, tr1) =>
      if f2.capacity > 0 then
        if o.newGlobalTemplate id then
          if o.allocGlobal id then
            (some { id := id, owner := f2.name, maxHeap := f2.maxHeapSize, hasReuse := hasReuse },
             f2,
             tr0 ++ tr1 ++ [FfiCall.newGlobalTemplate id, FfiCall.allocGlobal id, FfiCall.unlockCollection id])
          else
            (none, f2, tr0 ++ tr1 ++ [FfiCall.newGlobalTemplate id, FfiCall.allocGlobal id])
        else
          (none, f2, tr0 ++ tr1 ++ [FfiCall.newGlobalTemplate id])
      else
        (some { id := id, owner := f2.name, maxHeap := f2.maxHeapSize, hasReuse := hasReuse },
         f2, tr0 ++ tr1)
    | (false, _, tr1) => (none, f2, tr0 ++ tr1)
  else
    (none, f2, tr0)

/-- VMFactory::new_vm: with bounded capacity and room left, the
compare-and-swap raises size by one (sequential semantics: the swap against
the value just read succeeds) and construction proceeds; with bounded
capacity already reached it returns none untouched; with capacity zero it
builds an unpooled engine without touching size. -/
def VMFactory.new_vm (f : VMFactory) (o : EngineOracle) : Option Engine × VMFactory × List FfiCall :=
  if f.capacity ≠ 0 ∧ f.size < f.capacity then
    newVmBuild o { f with size := f.size + 1 }
  else if f.capacity ≠ 0 then
    (none, f, [])
  else
    newVmBuild o f

/-- Errors VMFactory::produce reports (the formatted strings of the source,
keeping the data they carry). -/
inductive ProduceErr where
  | full (name : String) (capacity size count : Nat)
  | newVmFailed (name : String)
  | sendFailed (name : String)
deriving DecidableEq

/-- Loop of VMFactory::produce: construct count engines one by one, pushing
each into the free queue (try_send fails when the queue is at its bound). -/
def produceLoop (o : EngineOracle) : Nat → VMFactory → Except ProduceErr Unit × VMFactory
  | 0, f => (Except.ok (), f)
  | n + 1, f =>
    match f.new_vm o with
    | (none, f2, _) => (Except.error (ProduceErr.newVmFailed f2.name), f2)
    | (some _, f2, _) =>
      if f2.freeLen < f2.queueBound then
        produceLoop o n { f2 with freeLen := f2.freeLen + 1 }
      else
        (Except.error (ProduceErr.sendFailed f2.name), f2)

/-- VMFactory::produce: zero requests answer Ok(count) at once; a request
overflowing the capacity answers the structured full error; otherwise the
loop runs and, on success, the result is Ok(self.size()) read after the
loop. -/
def VMFactory.produce (f : VMFactory) (o : EngineOracle) (count : Nat) : Except ProduceErr Nat × VMFactory :=
  if count = 0 then (Except.ok count, f)
  else if f.size + count > f.capacity then
    (Except.error (ProduceErr.full f.name f.capacity f.size count), f)
  else
    match produceLoop o count f with
    | (Except.ok _, f2) => (Except.ok f2.size, f2)
    | (Except.error e, f2) => (Except.error e, f2)

/-- VMFactory::call, restricted to its effect on the factory state: try_recv
pops a free engine when one is queued, otherwise new_vm constructs one; a
failed construction panics (flag false). -/
def VMFactory.call (f : VMFactory) (o : EngineOracle) : Bool × VMFactory :=
  if 0 < f.freeLen then
    (true, { f with freeLen := f.freeLen - 1 })
  else
    match f.new_vm o with
    | (none, f2, _) => (false, f2)
    | (some _, f2, _) => (true, f2)

/-- VMFactory::take: one JS::new call with the next allocation id, the
factory name, a max heap of zero and no reuse slot; the only state change
is the fetch-add on the allocation id. -/
def VMFactory.take (f : VMFactory) : VMFactory × List FfiCall :=
  ({ f with allocId := f.allocId + 1 }, [FfiCall.jsNew f.allocId f.name 0 false])

/-- Operations a client may interleave on one factory (for the size-bound
invariant). -/
inductive FOp where
  | produce (count : Nat)
  | call
deriving DecidableEq

/-- One client operation applied to the factory state. -/
def stepOp (o : EngineOracle) (f : VMFactory) : FOp → VMFactory
  | FOp.produce n => (f.produce o n).2
  | FOp.call => (f.call o).2

/-- A sequence of client operations applied in order. -/
def runOps (o : EngineOracle) (f : VMFactory) (ops : List FOp) : VMFactory :=
  ops.foldl (stepOp o) f

/-- An oracle under which every engine-side FFI call succeeds. -/
def oracleAllOk : EngineOracle :=
  { jsNew := fun _ => true
    loadOk := fun _ _ => true
    newGlobalTemplate := fun _ => true
    allocGlobal := fun _ => true }

/-- An oracle under which JS::new itself returns none. -/
def oracleNewFails : EngineOracle :=
  { oracleAllOk with jsNew := fun _ => false }

/-- An oracle under which every bytecode load is rejected. -/
def oracleLoadFails : EngineOracle :=
  { oracleAllOk with loadOk := fun _ _ => false }

/-- An oracle under which creating the global template fails. -/
def oracleTemplateFails : EngineOracle :=
  { oracleAllOk with newGlobalTemplate := fun _ => false }

/-- An oracle under which allocating the global fails. -/
def oracleAllocFails : EngineOracle :=
  { oracleAllOk with allocGlobal := fun _ => false }

/-- The scenario S1 factory: fresh, capacity two, two appended blobs. -/
def s1Factory : VMFactory :=
  ((VMFactory.new "f" 2 16777216).append [1]).append [2]

/-- A fresh capacity-one factory with no code. -/
def c2Factory : VMFactory := VMFactory.new "f" 1 16777216

/-- C1: on a fresh capacity-2 factory with every construction succeeding,
produce(2) returns Ok(2) — the size read after production — not Ok(0), the
size immediately before the call that the claim (and the function's own
doc comment, which promises the pre-production count) states; size and
free_size do end at 2 as claimed. -/
theorem produce_returns_post_size :
    s1Factory.size = 0
    ∧ (s1Factory.produce oracleAllOk 2).1 = Except.ok 2
    ∧ (s1Factory.produce oracleAllOk 2).2.size = 2
    ∧ (s1Factory.produce oracleAllOk 2).2.freeLen = 2 :=
  ⟨rfl, rfl, rfl, rfl⟩

/-- C2: every failure path of new_vm taken after the size slot was reserved
(JS::new none, a rejected load, a failed global template, a failed global
allocation) returns none while leaving the size counter at 1 on a fresh
capacity-1 factory whose size was 0: the reserved slot is never given
back. -/
theorem new_vm_failure_leaks_size :
    c2Factory.size = 0
    ∧ (c2Factory.new_vm oracleNewFails).1 = none
    ∧ (c2Factory.new_vm oracleNewFails).2.1.size = 1
    ∧ ((c2Factory.append [9]).new_vm oracleLoadFails).1 = none
    ∧ ((c2Factory.append [9]).new_vm oracleLoadFails).2.1.size = 1
    ∧ (c2Factory.new_vm oracleTemplateFails).1 = none
    ∧ (c2Factory.new_vm oracleTemplateFails).2.1.size = 1
    ∧ (c2Factory.new_vm oracleAllocFails).1 = none
    ∧ (c2Factory.new_vm oracleAllocFails).2.1.size = 1 :=
  ⟨rfl, rfl, rfl, rfl, rfl, rfl, rfl, rfl, rfl⟩

/-- The state newVmBuild leaves behind is the input with the allocation id
advanced, whichever branch runs. -/
theorem newVmBuild_state (o : EngineOracle) (f : VMFactory) :
    (newVmBuild o f).2.1 = { f with allocId := f.allocId + 1 } := by
  show (if o.jsNew f.allocId then _ else _ : Option Engine × VMFactory × List FfiCall).2.1 = _
  split
  · split
    · split
      · split
        · split
          · rfl
          · rfl
        · rfl
      · rfl
    · rfl
  · rfl

/-- newVmBuild keeps the size counter. -/
theorem newVmBuild_size (o : EngineOracle) (f : VMFactory) :
    (newVmBuild o f).2.1.size = f.size := by
  rw [newVmBuild_state]

/-- newVmBuild keeps the capacity. -/
theorem newVmBuild_capacity (o : EngineOracle) (f : VMFactory) :
    (newVmBuild o f).2.1.capacity = f.capacity := by
  rw [newVmBuild_state]

/-- new_vm never changes the capacity. -/
theorem new_vm_capacity (o : EngineOracle) (f : VMFactory) :
    (f.new_vm o).2.1.capacity = f.capacity := by
  unfold VMFactory.new_vm
  split
  · rw [newVmBuild_capacity]
  · split
    · rfl
    · rw [newVmBuild_capacity]

/-- new_vm keeps size at or below capacity. -/
theorem new_vm_size_le (o : EngineOracle) (f : VMFactory) (h : f.size ≤ f.capacity) :
    (f.new_vm o).2.1.size ≤ f.capacity := by
  unfold VMFactory.new_vm
  split
  · rename_i hc
    rw [newVmBuild_size]
    exact hc.2
  · split
    · exact h
    · rw [newVmBuild_size]
      exact h

/-- new_vm raises size only from strictly below capacity, and then by
exactly one. -/
theorem new_vm_size_change (o : EngineOracle) (f : VMFactory) :
    (f.new_vm o).2.1.size = f.size
    ∨ ((f.new_vm o).2.1.size = f.size + 1 ∧ f.size < f.capacity) := by
  unfold VMFactory.new_vm
  split
  · rename_i hc
    right
    rw [newVmBuild_size]
    exact ⟨rfl, hc.2⟩
  · split
    · left; rfl
    · left; rw [newVmBuild_size]

/-- The produce loop keeps size at or below the starting capacity and keeps
the capacity itself. -/
theorem produceLoop_props (o : EngineOracle) (n : Nat) :
    ∀ f : VMFactory, f.size ≤ f.capacity →
      (produceLoop o n f).2.size ≤ f.capacity ∧ (produceLoop o n f).2.capacity = f.capacity := by
  induction n with
  | zero => intro f h; exact ⟨h, rfl⟩
  | succ n ih =>
    intro f h
    have hs := new_vm_size_le o f h
    have hc := new_vm_capacity o f
    unfold produceLoop
    split
    · rename_i f2 tr hnv
      rw [hnv] at hs hc
      exact ⟨hs, hc⟩
    · rename_i e f2 tr hnv
      rw [hnv] at hs hc
      split
      · have h3 : ({ f2 with freeLen := f2.freeLen + 1 } : VMFactory).size
            ≤ ({ f2 with freeLen := f2.freeLen + 1 } : VMFactory).capacity := by
          rw [show ({ f2 with freeLen := f2.freeLen + 1 } : VMFactory).capacity = f2.capacity from rfl]
          rw [hc]
          exact hs
        have h4 := ih { f2 with freeLen := f2.freeLen + 1 } h3
        constructor
        · calc (produceLoop o n { f2 with freeLen := f2.freeLen + 1 }).2.size
              ≤ f2.capacity := h4.1
            _ = f.capacity := hc
        · rw [h4.2]
          exact hc
      · exact ⟨hs, hc⟩

/-- produce keeps size at or below the starting capacity and keeps the
capacity itself. -/
theorem produce_props (o : EngineOracle) (f : VMFactory) (count : Nat)
    (h : f.size ≤ f.capacity) :
    (f.produce o count).2.size ≤ f.capacity ∧ (f.produce o count).2.capacity = f.capacity := by
  unfold VMFactory.produce
  split
  · exact ⟨h, rfl⟩
  · split
    · exact ⟨h, rfl⟩
    · have hp := produceLoop_props o count f h
      split
      · rename_i f2 hpl
        rw [hpl] at hp
        exact hp
      · rename_i e f2 hpl
        rw [hpl] at hp
        exact hp

/-- call keeps size at or below the starting capacity and keeps the
capacity itself. -/
theorem call_props (o : EngineOracle) (f : VMFactory) (h : f.size ≤ f.capacity) :
    (f.call o).2.size ≤ f.capacity ∧ (f.call o).2.capacity = f.capacity := by
  unfold VMFactory.call
  split
  · exact ⟨h, rfl⟩
  · have hs := new_vm_size_le o f h
    have hc := new_vm_capacity o f
    split
    · rename_i f2 tr hnv
      rw [hnv] at hs hc
      exact ⟨hs, hc⟩
    · rename_i e f2 tr hnv
      rw [hnv] at hs hc
      exact ⟨hs, hc⟩

/-- One client operation keeps size at or below the starting capacity and
keeps the capacity itself. -/
theorem stepOp_props (o : EngineOracle) (f : VMFactory) (op : FOp)
    (h : f.size ≤ f.capacity) :
    (stepOp o f op).size ≤ f.capacity ∧ (stepOp o f op).capacity = f.capacity := by
  cases op with
  | produce n => exact produce_props o f n h
  | call => exact call_props o f h

/-- Any sequence of client operations keeps size at or below the starting
capacity and keeps the capacity itself. -/
theorem runOps_props (o : EngineOracle) (ops : List FOp) :
    ∀ f : VMFactory, f.size ≤ f.capacity →
      (runOps o f ops).size ≤ f.capacity ∧ (runOps o f ops).capacity = f.capacity := by
  induction ops with
  | nil => intro f h; exact ⟨h, rfl⟩
  | cons op rest ih =>
    intro f h
    have h1 := stepOp_props o f op h
    have h2 := ih (stepOp o f op) (by rw [h1.2]; exact h1.1)
    rw [show runOps o f (op :: rest) = runOps o (stepOp o f op) rest from rfl]
    constructor
    · calc (runOps o (stepOp o f op) rest).size
          ≤ (stepOp o f op).capacity := h2.1
        _ = f.capacity := h1.2
    · rw [h2.2]
      exact h1.2

/-- C3: for a factory with positive capacity, size stays at or below
capacity after every sequence of produce and call operations; moreover
new_vm at capacity returns none leaving the state untouched, call at
capacity with an empty free queue panics, and any new_vm that changed
size started strictly below capacity. -/
theorem factory_size_bound (o : EngineOracle) (f0 : VMFactory) (ops : List FOp)
    (hcap : 0 < f0.capacity) (hsz : f0.size ≤ f0.capacity) :
    (runOps o f0 ops).size ≤ f0.capacity
    ∧ (∀ f : VMFactory, 0 < f.capacity → f.capacity ≤ f.size →
        f.new_vm o = (none, f, []))
    ∧ (∀ f : VMFactory, 0 < f.capacity → f.capacity ≤ f.size → f.freeLen = 0 →
        (f.call o).1 = false)
    ∧ (∀ f : VMFactory, (f.new_vm o).2.1.size ≠ f.size → f.size < f.capacity) := by
  have hfull : ∀ f : VMFactory, 0 < f.capacity → f.capacity ≤ f.size →
      f.new_vm o = (none, f, []) := by
    intro f h1 h2
    unfold VMFactory.new_vm
    rw [if_neg, if_pos]
    · omega
    · rintro ⟨-, hlt⟩
      omega
  refine ⟨(runOps_props o ops f0 hsz).1, hfull, ?_, ?_⟩
  · intro f h1 h2 h3
    unfold VMFactory.call
    rw [if_neg (by omega), hfull f h1 h2]
  · intro f hne
    rcases new_vm_size_change o f with h | h
    · exact absurd h hne
    · exact h.2

/-- Witness for factory_size_bound at a concrete run: a fresh capacity-2
factory, one produce of 1 followed by two calls. -/
theorem factory_size_bound_witness :
    (runOps oracleAllOk (VMFactory.new "f" 2 16777216)
      [FOp.produce 1, FOp.call, FOp.call]).size ≤ 2 :=
  (factory_size_bound oracleAllOk (VMFactory.new "f" 2 16777216)
    [FOp.produce 1, FOp.call, FOp.call] (by decide) (by decide)).1

/-- The factory of the C4 counterexample: fresh, capacity two, one blob. -/
def c4Factory : VMFactory := (VMFactory.new "f" 2 16777216).append [1]

/-- C4 counterexample: on c4Factory an engine is constructed by produce(1)
(which succeeds), yet the following append still grows the codes list from
one blob to two — constructing an engine does not freeze the list, so a
later engine would load a different code list than the first. -/
theorem append_after_produce_grows_codes :
    (c4Factory.produce oracleAllOk 1).1 = Except.ok 1
    ∧ (c4Factory.produce oracleAllOk 1).2.codes = [[1]]
    ∧ ((c4Factory.produce oracleAllOk 1).2.append [2]).codes = [[1], [2]] :=
  ⟨rfl, rfl, rfl⟩

/-- C4 amended: append grows the codes list exactly when the codes Arc is
uniquely referenced (codesAliases = 0) and is a no-op when the Arc is
shared; sharing comes from cloning the factory, while constructing an
engine changes neither the codes list nor its sharing. -/
theorem append_growth_iff_unshared (f : VMFactory) (c : Code) (o : EngineOracle) :
    (f.codesAliases = 0 → (f.append c).codes = f.codes ++ [c])
    ∧ (f.codesAliases ≠ 0 → f.append c = f)
    ∧ (f.new_vm o).2.1.codes = f.codes
    ∧ (f.new_vm o).2.1.codesAliases = f.codesAliases
    ∧ f.cloneF.1.codesAliases = f.codesAliases + 1
    ∧ f.cloneF.2.codesAliases = f.codesAliases + 1 := by
  refine ⟨?_, ?_, ?_, ?_, rfl, rfl⟩
  · intro h
    unfold VMFactory.append
    rw [if_pos h]
  · intro h
    unfold VMFactory.append
    rw [if_neg h]
  · unfold VMFactory.new_vm
    split
    · rw [newVmBuild_state]
    · split
      · rfl
      · rw [newVmBuild_state]
  · unfold VMFactory.new_vm
    split
    · rw [newVmBuild_state]
    · split
      · rfl
      · rw [newVmBuild_state]

/-- A factory value sharing its codes Arc with a clone. -/
def c4Shared : VMFactory := ((VMFactory.new "g" 1 0).cloneF).1

/-- Witness for append_growth_iff_unshared: an unshared factory grows its
code list, a cloned one does not. -/
theorem append_growth_iff_unshared_witness :
    ((VMFactory.new "g" 1 0).append [5]).codes = [[5]]
    ∧ c4Shared.append [5] = c4Shared :=
  ⟨(append_growth_iff_unshared (VMFactory.new "g" 1 0) [5] oracleAllOk).1 rfl,
   (append_growth_iff_unshared c4Shared [5] oracleAllOk).2.1 (by decide)⟩

/-- VMFactoryLoader (pi_vm_impl.rs): a cursor over the shared code list. -/
structure VMFactoryLoader where
  offset : Nat
  top : Nat
  codes : List Code
deriving DecidableEq

/-- VMFactory::loader: a fresh cursor at offset zero whose top is fixed at
the current length of the code list (the loader shares the codes Arc by
reference while it lives). -/
def VMFactory.loader (f : VMFactory) : VMFactoryLoader :=
  { offset := 0, top := f.codes.length, codes := f.codes }

/-- Engine-visible events of one load_next call. -/
inductive LoadEv where
  | load (c : Code)
  | waitRan
deriving DecidableEq

/-- VMFactoryLoader::load_next: exhausted (offset at or past top) answers
false at once; otherwise codes[offset] is submitted to the engine, an
acknowledged load busy-waits until the engine has run it, the offset
advances by one and the answer is true. -/
def VMFactoryLoader.load_next (l : VMFactoryLoader) (ack : Code → Bool) :
    Bool × VMFactoryLoader × List LoadEv :=
  if l.top ≤ l.offset then (false, l, [])
  else if ack (l.codes.getD l.offset []) then
    (true, { l with offset := l.offset + 1 },
      [LoadEv.load (l.codes.getD l.offset []), LoadEv.waitRan])
  else
    (true, { l with offset := l.offset + 1 }, [LoadEv.load (l.codes.getD l.offset [])])

/-- Repeated load_next calls, one per engine oracle in the list. -/
def load_all : VMFactoryLoader → List (Code → Bool) → List Bool × VMFactoryLoader
  | l, [] => ([], l)
  | l, a :: rest =>
    ((l.load_next a).1 :: (load_all (l.load_next a).2.1 rest).1,
     (load_all (l.load_next a).2.1 rest).2)

/-- On an exhausted loader every further load_next call answers false and
leaves the loader unchanged. -/
theorem load_all_exhausted (l : VMFactoryLoader) (h : l.top ≤ l.offset) :
    ∀ acks : List (Code → Bool),
      (load_all l acks).1 = List.replicate acks.length false ∧ (load_all l acks).2 = l := by
  intro acks
  induction acks with
  | nil => exact ⟨rfl, rfl⟩
  | cons a rest ih =>
    have hl : l.load_next a = (false, l, []) := by
      unfold VMFactoryLoader.load_next
      rw [if_pos h]
    unfold load_all
    rw [hl]
    exact ⟨by rw [List.length_cons, List.replicate_succ, ih.1], ih.2⟩

/-- C5: for a loader whose offset has not passed its top, load_next answers
false exactly when the code list is exhausted (offset equal to top), an
exhausted loader is left unchanged and answers false on every subsequent
call, and otherwise codes[offset] is submitted to the engine, the engine is
waited on when it acknowledged the load, the offset advances by exactly one
and the answer is true. -/
theorem load_next_spec (l : VMFactoryLoader) (ack : Code → Bool)
    (hoff : l.offset ≤ l.top) :
    ((l.load_next ack).1 = false ↔ l.offset = l.top)
    ∧ ((l.load_next ack).1 = false → (l.load_next ack).2.1 = l)
    ∧ (l.offset = l.top → ∀ acks : List (Code → Bool),
        (load_all l acks).1 = List.replicate acks.length false)
    ∧ (l.offset < l.top →
        (l.load_next ack).1 = true
        ∧ (l.load_next ack).2.1.offset = l.offset + 1
        ∧ (l.load_next ack).2.1.top = l.top
        ∧ (l.load_next ack).2.1.codes = l.codes
        ∧ (ack (l.codes.getD l.offset []) = true →
            (l.load_next ack).2.2 =
              [LoadEv.load (l.codes.getD l.offset []), LoadEv.waitRan])
        ∧ (ack (l.codes.getD l.offset []) = false →
            (l.load_next ack).2.2 = [LoadEv.load (l.codes.getD l.offset [])])) := by
  by_cases hexh : l.top ≤ l.offset
  · have hl : l.load_next ack = (false, l, []) := by
      unfold VMFactoryLoader.load_next
      rw [if_pos hexh]
    refine ⟨?_, ?_, ?_, ?_⟩
    · rw [hl]
      constructor
      · intro _; omega
      · intro _; rfl
    · intro _
      rw [hl]
    · intro _ acks
      exact (load_all_exhausted l hexh acks).1
    · intro hlt
      omega
  · have hlt : l.offset < l.top := by omega
    by_cases hack : ack (l.codes.getD l.offset []) = true
    · have hl : l.load_next ack = (true, { l with offset := l.offset + 1 },
          [LoadEv.load (l.codes.getD l.offset []), LoadEv.waitRan]) := by
        unfold VMFactoryLoader.load_next
        rw [if_neg hexh, if_pos hack]
      refine ⟨?_, ?_, ?_, ?_⟩
      · rw [hl]
        constructor
        · intro h; exact absurd h (by simp)
        · intro h; omega
      · intro h
        rw [hl] at h
        exact absurd h (by simp)
      · intro h; omega
      · intro _
        rw [hl]
        refine ⟨rfl, rfl, rfl, rfl, fun _ => rfl, fun hf => ?_⟩
        rw [hack] at hf
        exact absurd hf (by simp)
    · have hackf : ack (l.codes.getD l.offset []) = false := by
        cases h : ack (l.codes.getD l.offset [])
        · rfl
        · exact absurd h hack
      have hl : l.load_next ack = (true, { l with offset := l.offset + 1 },
          [LoadEv.load (l.codes.getD l.offset [])]) := by
        unfold VMFactoryLoader.load_next
        rw [if_neg hexh, if_neg hack]
      refine ⟨?_, ?_, ?_, ?_⟩
      · rw [hl]
        constructor
        · intro h; exact absurd h (by simp)
        · intro h; omega
      · intro h
        rw [hl] at h
        exact absurd h (by simp)
      · intro h; omega
      · intro _
        rw [hl]
        refine ⟨rfl, rfl, rfl, rfl, fun ht => ?_, fun _ => rfl⟩
        rw [hackf] at ht
        exact absurd ht (by simp)

/-- The loader of the C5 witness: one blob, so top is one. -/
def s5Loader : VMFactoryLoader := ((VMFactory.new "f" 2 0).append [3]).loader

/-- Witness for load_next_spec: on a fresh one-blob loader the first call
answers true and advances the offset to one. -/
theorem load_next_spec_witness :
    (s5Loader.load_next (fun _ => true)).1 = true
    ∧ (s5Loader.load_next (fun _ => true)).2.1.offset = 1
    ∧ (s5Loader.load_next (fun _ => true)).2.2 = [LoadEv.load [3], LoadEv.waitRan] :=
  have h := load_next_spec s5Loader (fun _ => true) (by decide)
  have h4 := h.2.2.2 (by decide)
  ⟨h4.1, h4.2.1, h4.2.2.2.2.1 rfl⟩

/-- Lookup in a string-keyed association list (HashMap::get). -/
def alistGet {A : Type} : List (String × A) → String → Option A
  | [], _ => none
  | (k, v) :: rest, key => if k = key then some v else alistGet rest key

/-- Insert-or-replace in a string-keyed association list (HashMap entry
insert), returning the map and the previous value. -/
def alistSet {A : Type} : List (String × A) → String → A → List (String × A) × Option A
  | [], key, v => ([(key, v)], none)
  | (k, w) :: rest, key, v =>
    if k = key then ((k, v) :: rest, some w)
    else
      ((k, w) :: (alistSet rest key v).1, (alistSet rest key v).2)

/-- GenType values the channel attribute bag carries; only USize is used by
this core. -/
inductive GenTypeM where
  | usizeV (n : Nat)
deriving DecidableEq

/-- VMChannelPeer (channel_map.rs): any virtual machine, or one given
engine, here named by an opaque handle. -/
inductive VMChannelPeer where
  | any
  | vm (js : Nat)
deriving DecidableEq

/-- VMChannel (channel_map.rs): source peer, destination peer and the
attribute bag. -/
structure VMChannel where
  src : VMChannelPeer
  dst : VMChannelPeer
  attrs : List (String × GenTypeM)
deriving DecidableEq

/-- VMChannel::new: the given peers and an empty attribute bag. -/
def VMChannel.new (src dst : VMChannelPeer) : VMChannel :=
  { src := src, dst := dst, attrs := [] }

/-- Env::set_attr on a channel: entry insert into the attribute bag. -/
def VMChannel.set_attr (ch : VMChannel) (key : String) (v : GenTypeM) :
    VMChannel × Option GenTypeM :=
  ({ ch with attrs := (alistSet ch.attrs key v).1 }, (alistSet ch.attrs key v).2)

/-- The three-argument payload Args::ThreeArgs(msg, native_objs, callback)
given to a handler. -/
structure Args3 where
  msg : List Nat
  nativeObjs : List Nat
  callback : Nat
deriving DecidableEq

/-- One handler invocation as VMChannelMap::request performs it: the handler
(named by an opaque id), the channel it receives, the request name and the
payload. -/
structure HandlerInvocation where
  handler : Nat
  channel : VMChannel
  name : String
  args : Args3
deriving DecidableEq

/-- VMChannelMap (channel_map.rs): the gray value and the name-to-handler
table (handlers are opaque shared references, named by ids). -/
structure VMChannelMap where
  gray : Nat
  map : List (String × Nat)
deriving DecidableEq

/-- VMChannelMap::new with the given gray value and no handlers. -/
def VMChannelMap.newMap (gray : Nat) : VMChannelMap :=
  { gray := gray, map := [] }

/-- VMChannelMap::get_gray. -/
def VMChannelMap.get_gray (m : VMChannelMap) : Nat := m.gray

/-- VMChannelMap::set_gray: returns the previous gray value. -/
def VMChannelMap.set_gray (m : VMChannelMap) (gray : Nat) : VMChannelMap × Nat :=
  ({ m with gray := gray }, m.gray)

/-- VMChannelMap::size: the number of registered handlers. -/
def VMChannelMap.sizeMap (m : VMChannelMap) : Nat := m.map.length

/-- VMChannelMap::set: register a handler, returning the previous one under
the same name. -/
def VMChannelMap.set (m : VMChannelMap) (name : String) (handler : Nat) :
    VMChannelMap × Option Nat :=
  ({ m with map := (alistSet m.map name handler).1 }, (alistSet m.map name handler).2)

/-- VMChannelMap::request: look the name up; absent answers false with no
handler run; present builds the channel with source Vm(js) and destination
Any, writes the gray attribute, and hands channel, name and the
three-argument payload to the handler, answering true. -/
def VMChannelMap.request (m : VMChannelMap) (js : Nat) (name : String)
    (msg : List Nat) (nativeObjs : List Nat) (callback : Nat) :
    Bool × Option HandlerInvocation :=
  match alistGet m.map name with
  | none => (false, none)
  | some h =>
    ( true,
      some
        { handler := h
          channel := ((VMChannel.new (VMChannelPeer.vm js) VMChannelPeer.any).set_attr
            "_$gray" (GenTypeM.usizeV m.gray)).1
          name := name
          args := { msg := msg, nativeObjs := nativeObjs, callback := callback } } )

/-- C6: request on an unregistered name answers false and runs no handler;
on a registered name it answers true and runs that handler once with a
channel whose source is Vm(engine), whose destination is Any and whose only
attribute is the gray key holding the current gray value, passing the name
and the payload (msg, native_objs, callback). -/
theorem request_spec (m : VMChannelMap) (js : Nat) (name : String)
    (msg : List Nat) (objs : List Nat) (cb : Nat) :
    (alistGet m.map name = none →
      m.request js name msg objs cb = (false, none))
    ∧ (∀ h : Nat, alistGet m.map name = some h →
      m.request js name msg objs cb =
        ( true,
          some
            { handler := h
              channel :=
                { src := VMChannelPeer.vm js
                  dst := VMChannelPeer.any
                  attrs := [("_$gray", GenTypeM.usizeV m.gray)] }
              name := name
              args := { msg := msg, nativeObjs := objs, callback := cb } } )) := by
  constructor
  · intro hnone
    unfold VMChannelMap.request
    rw [hnone]
  · intro h hsome
    unfold VMChannelMap.request
    rw [hsome]
    rfl

/-- The registry of the C6 witness: gray 4, one handler named echo. -/
def chanMapEx : VMChannelMap := ((VMChannelMap.newMap 4).set "echo" 5).1

/-- Witness for request_spec: an unknown name answers false, the registered
one answers true with the recorded invocation. -/
theorem request_spec_witness :
    chanMapEx.request 1 "nope" [] [] 7 = (false, none)
    ∧ chanMapEx.request 1 "echo" [2] [3] 77 =
      ( true,
        some
          { handler := 5
            channel :=
              { src := VMChannelPeer.vm 1
                dst := VMChannelPeer.any
                attrs := [("_$gray", GenTypeM.usizeV 4)] }
            name := "echo"
            args := { msg := [2], nativeObjs := [3], callback := 77 } } ) :=
  ⟨(request_spec chanMapEx 1 "nope" [] [] 7).1 (by decide),
   (request_spec chanMapEx 1 "echo" [2] [3] 77).2 5 (by decide)⟩

/-- A script-visible byte array value. -/
structure U8Array where
  len : Nat
  bytes : List Nat
deriving DecidableEq

/-- Modelled from the spec: vm.new_uint8_array(len) of the interpreter FFI
(adapter module, not under src) creates a script-visible byte array of the
given length. -/
def newUint8Array (n : Nat) : U8Array :=
  { len := n, bytes := List.replicate n 0 }

/-- Modelled from the spec: array.from_bytes(slice) of the interpreter FFI
(adapter module, not under src) copies the given bytes into the array. -/
def U8Array.from_bytes (a : U8Array) (bs : List Nat) : U8Array :=
  { a with bytes := bs }

/-- The argument builder the response closure registers: build a byte array
of the reply length, copy the reply in, leave it as the one argument. -/
def responseArgsBuilder (result : List Nat) : U8Array × Nat :=
  ((newUint8Array result.length).from_bytes result, 1)

/-- The async callback VMChannel::response posts via push_callback: the
target engine, the script callback id, and the outcome of the argument
builder (the built array and the argument count it returns). -/
structure PushedCallback where
  engine : Nat
  callback : Nat
  builtArray : U8Array
  argCount : Nat
deriving DecidableEq

/-- VMChannel::response: a source that is a given engine gets the reply
posted back as an async callback carrying the built byte array, answering
true; any other source does nothing and answers false. -/
def VMChannel.response (ch : VMChannel) (callback : Nat) (result : List Nat) :
    Bool × Option PushedCallback :=
  match ch.src with
  | VMChannelPeer.vm js =>
    ( true,
      some
        { engine := js
          callback := callback
          builtArray := (responseArgsBuilder result).1
          argCount := (responseArgsBuilder result).2 } )
  | VMChannelPeer.any => (false, none)

/-- C7: response with source Any performs no action and answers false; with
source Vm(engine) it answers true and posts onto that engine an async
callback whose builder makes a byte array of exactly the reply length,
copies the reply bytes into it, and leaves it as the single argument. -/
theorem response_spec (ch : VMChannel) (cb : Nat) (result : List Nat) :
    (ch.src = VMChannelPeer.any → ch.response cb result = (false, none))
    ∧ (∀ js : Nat, ch.src = VMChannelPeer.vm js →
      ch.response cb result =
        ( true,
          some
            { engine := js
              callback := cb
              builtArray := { len := result.length, bytes := result }
              argCount := 1 } )
      ∧ (responseArgsBuilder result).1.len = result.length
      ∧ (responseArgsBuilder result).1.bytes = result
      ∧ (responseArgsBuilder result).2 = 1) := by
  constructor
  · intro hany
    unfold VMChannel.response
    rw [hany]
  · intro js hvm
    refine ⟨?_, rfl, rfl, rfl⟩
    unfold VMChannel.response
    rw [hvm]
    rfl

/-- Witness for response_spec: a channel from engine 9 gets its two-byte
reply posted back; a channel from Any answers false. -/
theorem response_spec_witness :
    (VMChannel.new (VMChannelPeer.vm 9) VMChannelPeer.any).response 77 [1, 2] =
      ( true,
        some
          { engine := 9
            callback := 77
            builtArray := { len := 2, bytes := [1, 2] }
            argCount := 1 } )
    ∧ (VMChannel.new VMChannelPeer.any VMChannelPeer.any).response 77 [1, 2] = (false, none) :=
  ⟨((response_spec (VMChannel.new (VMChannelPeer.vm 9) VMChannelPeer.any) 77 [1, 2]).2 9 rfl).1,
   (response_spec (VMChannel.new VMChannelPeer.any VMChannelPeer.any) 77 [1, 2]).1 rfl⟩

/-- JSStatus (adapter): the interpreter status tokens the core reads and
switches. -/
inductive JSStatus where
  | NoTask
  | SingleTask
  | MultiTask
  | WaitBlock
  | WaitCallBack
deriving DecidableEq

/-- BlockError (pi_vm_impl.rs). -/
inductive BlockError where
  | unknow (s : String)
  | newGlobalVar (s : String)
  | setGlobalVar (s : String)
deriving DecidableEq

/-- What one run of the posted block_set_global_var task does: repost
itself, or invoke the continuation with success or with an error. -/
inductive BsgvOutcome where
  | repost
  | contOk
  | contErr (e : BlockError)
deriving DecidableEq

/-- Observable result of one run of the posted block_set_global_var task:
its outcome, how many wakeup and continue FFI calls it made, and the engine
status it leaves. -/
structure BsgvStep where
  outcome : BsgvOutcome
  wakeups : Nat
  continues : Nat
  statusAfter : JSStatus
deriving DecidableEq

/-- Task body of block_set_global_var: statuses WaitBlock and SingleTask
repost; MultiTask runs the value builder and the global write, invoking the
continuation with NewGlobalVar on a failed build, with SetGlobalVar naming
the variable on a failed write, or with success; any other status reposts.
No branch calls wakeup or continue and none switches the status. -/
def blockSetGlobalVarTask (status : JSStatus) (name : String)
    (varResult : Except String Nat) (setOk : Nat → Bool) : BsgvStep :=
  if status = JSStatus.WaitBlock ∨ status = JSStatus.SingleTask then
    { outcome := BsgvOutcome.repost, wakeups := 0, continues := 0, statusAfter := status }
  else if status = JSStatus.MultiTask then
    match varResult with
    | Except.error reason =>
      { outcome := BsgvOutcome.contErr (BlockError.newGlobalVar reason)
        wakeups := 0, continues := 0, statusAfter := status }
    | Except.ok value =>
      if setOk value then
        { outcome := BsgvOutcome.contOk, wakeups := 0, continues := 0, statusAfter := status }
      else
        { outcome := BsgvOutcome.contErr (BlockError.setGlobalVar name)
          wakeups := 0, continues := 0, statusAfter := status }
  else
    { outcome := BsgvOutcome.repost, wakeups := 0, continues := 0, statusAfter := status }

/-- C8: on an engine whose status is MultiTask, the block_set_global_var
task invokes the continuation with a NewGlobalVar error when the value
builder fails, with a SetGlobalVar error naming the variable when the
global write fails, and with success when both succeed; in all three cases
it makes no wakeup and no continue call and leaves the status MultiTask. -/
theorem block_set_global_var_spec (status : JSStatus) (name : String)
    (varResult : Except String Nat) (setOk : Nat → Bool)
    (h : status = JSStatus.MultiTask) :
    (blockSetGlobalVarTask status name varResult setOk).wakeups = 0
    ∧ (blockSetGlobalVarTask status name varResult setOk).continues = 0
    ∧ (blockSetGlobalVarTask status name varResult setOk).statusAfter = JSStatus.MultiTask
    ∧ (∀ reason : String, varResult = Except.error reason →
        (blockSetGlobalVarTask status name varResult setOk).outcome =
          BsgvOutcome.contErr (BlockError.newGlobalVar reason))
    ∧ (∀ v : Nat, varResult = Except.ok v → setOk v = true →
        (blockSetGlobalVarTask status name varResult setOk).outcome = BsgvOutcome.contOk)
    ∧ (∀ v : Nat, varResult = Except.ok v → setOk v = false →
        (blockSetGlobalVarTask status name varResult setOk).outcome =
          BsgvOutcome.contErr (BlockError.setGlobalVar name)) := by
  subst h
  unfold blockSetGlobalVarTask
  rw [if_neg (by simp), if_pos rfl]
  refine ⟨?_, ?_, ?_, ?_, ?_, ?_⟩
  · cases varResult with
    | error r => rfl
    | ok v =>
      show (if setOk v = true then _ else _ : BsgvStep).wakeups = 0
      split <;> rfl
  · cases varResult with
    | error r => rfl
    | ok v =>
      show (if setOk v = true then _ else _ : BsgvStep).continues = 0
      split <;> rfl
  · cases varResult with
    | error r => rfl
    | ok v =>
      show (if setOk v = true then _ else _ : BsgvStep).statusAfter = JSStatus.MultiTask
      split <;> rfl
  · intro reason hr
    rw [hr]
  · intro v hv hs
    rw [hv]
    show (if setOk v = true then _ else _ : BsgvStep).outcome = _
    rw [hs]
    rfl
  · intro v hv hs
    rw [hv]
    show (if setOk v = true then _ else _ : BsgvStep).outcome = _
    rw [hs]
    rfl

/-- Witness for block_set_global_var_spec: in MultiTask with a successful
builder and write, the continuation gets success with no wakeup. -/
theorem block_set_global_var_spec_witness :
    (blockSetGlobalVarTask JSStatus.MultiTask "g" (Except.ok 3) (fun _ => true)).wakeups = 0
    ∧ (blockSetGlobalVarTask JSStatus.MultiTask "g" (Except.ok 3) (fun _ => true)).outcome =
        BsgvOutcome.contOk :=
  have h := block_set_global_var_spec JSStatus.MultiTask "g" (Except.ok 3) (fun _ => true) rfl
  ⟨h.1, h.2.2.2.2.1 3 rfl rfl⟩

/-- Modelled from the spec: dukc_vm_status_switch of the interpreter FFI
(adapter module, not under src) atomically compares the status with the
expected one and, only on a match, replaces it with the target, returning
the prior status in either case. -/
def statusSwitch (st expect target : JSStatus) : JSStatus × JSStatus :=
  if st = expect then (target, st) else (st, st)

/-- Observable result of one run of a posted block_reply or block_throw
task: the engine status it leaves, how many wakeup calls it made and with
which result code, how many continue calls it made, and whether it reposted
itself. -/
structure BlockAttemptResult where
  statusAfter : JSStatus
  wakeups : Nat
  wakeCode : Option Nat
  continues : Nat
  reposted : Bool
deriving DecidableEq

/-- Task body of block_reply: statuses WaitBlock and SingleTask repost;
otherwise compare-and-switch MultiTask to SingleTask, and only a returned
MultiTask wakes the engine with code 0, runs the result builder and
continues it; any other returned status reposts. -/
def blockReplyTask (st : JSStatus) : BlockAttemptResult :=
  if st = JSStatus.WaitBlock ∨ st = JSStatus.SingleTask then
    { statusAfter := st, wakeups := 0, wakeCode := none, continues := 0, reposted := true }
  else
    match statusSwitch st JSStatus.MultiTask JSStatus.SingleTask with
    | (st2, old) =>
      if old = JSStatus.MultiTask then
        { statusAfter := st2, wakeups := 1, wakeCode := some 0, continues := 1, reposted := false }
      else
        { statusAfter := st2, wakeups := 0, wakeCode := none, continues := 0, reposted := true }

/-- Task body of block_throw: as blockReplyTask, but a successful switch
wakes the engine with code 1 and installs the error before continuing. -/
def blockThrowTask (st : JSStatus) : BlockAttemptResult :=
  if st = JSStatus.WaitBlock ∨ st = JSStatus.SingleTask then
    { statusAfter := st, wakeups := 0, wakeCode := none, continues := 0, reposted := true }
  else
    match statusSwitch st JSStatus.MultiTask JSStatus.SingleTask with
    | (st2, old) =>
      if old = JSStatus.MultiTask then
        { statusAfter := st2, wakeups := 1, wakeCode := some 1, continues := 1, reposted := false }
      else
        { statusAfter := st2, wakeups := 0, wakeCode := none, continues := 0, reposted := true }

/-- The two competing completion operations. -/
inductive BlockKind where
  | reply
  | throwK
deriving DecidableEq

/-- Run one completion attempt against the engine status. -/
def runBlockKind (st : JSStatus) : BlockKind → BlockAttemptResult
  | BlockKind.reply => blockReplyTask st
  | BlockKind.throwK => blockThrowTask st

/-- Run a queue of completion attempts in order, returning the final status
and the total number of wakeup calls made. -/
def runBlockAttempts : JSStatus → List BlockKind → JSStatus × Nat
  | st, [] => (st, 0)
  | st, k :: rest =>
    ((runBlockAttempts (runBlockKind st k).statusAfter rest).1,
     (runBlockKind st k).wakeups + (runBlockAttempts (runBlockKind st k).statusAfter rest).2)

/-- An attempt that does not find MultiTask wakes nobody, reposts, and
leaves the status alone. -/
theorem runBlockKind_notMulti (st : JSStatus) (k : BlockKind)
    (h : st ≠ JSStatus.MultiTask) :
    runBlockKind st k =
      { statusAfter := st, wakeups := 0, wakeCode := none, continues := 0, reposted := true } := by
  cases k <;> cases st <;>
    simp_all [runBlockKind, blockReplyTask, blockThrowTask, statusSwitch]

/-- An attempt that finds MultiTask wins the switch: it wakes once and
leaves the status SingleTask without reposting. -/
theorem runBlockKind_multi (k : BlockKind) :
    (runBlockKind JSStatus.MultiTask k).wakeups = 1
    ∧ (runBlockKind JSStatus.MultiTask k).statusAfter = JSStatus.SingleTask
    ∧ (runBlockKind JSStatus.MultiTask k).reposted = false := by
  cases k <;>
    simp [runBlockKind, blockReplyTask, blockThrowTask, statusSwitch]

/-- From a status other than MultiTask, no queue of attempts ever wakes the
engine. -/
theorem runBlockAttempts_notMulti (ks : List BlockKind) :
    ∀ st : JSStatus, st ≠ JSStatus.MultiTask →
      runBlockAttempts st ks = (st, 0) := by
  induction ks with
  | nil => intro st _; rfl
  | cons k rest ih =>
    intro st h
    unfold runBlockAttempts
    rw [runBlockKind_notMulti st k h]
    rw [ih st h]
    rfl

/-- C9: starting from one suspension (status MultiTask), any nonempty queue
of competing block_reply and block_throw attempts wakes the engine exactly
once: the first attempt wins the compare-and-switch, wakes and continues,
and leaves SingleTask; every competing attempt then observes a status other
than MultiTask, wakes nobody and reposts. -/
theorem block_reply_throw_single_completion (ks : List BlockKind) (hne : ks ≠ []) :
    (runBlockAttempts JSStatus.MultiTask ks).2 = 1
    ∧ (runBlockAttempts JSStatus.MultiTask ks).1 = JSStatus.SingleTask
    ∧ (∀ k : BlockKind,
        (runBlockKind JSStatus.MultiTask k).wakeups = 1
        ∧ (runBlockKind JSStatus.MultiTask k).statusAfter = JSStatus.SingleTask)
    ∧ (∀ (st : JSStatus) (k : BlockKind), st ≠ JSStatus.MultiTask →
        (runBlockKind st k).wakeups = 0
        ∧ (runBlockKind st k).reposted = true
        ∧ (runBlockKind st k).statusAfter = st) := by
  refine ⟨?_, ?_, ?_, ?_⟩
  · cases ks with
    | nil => exact absurd rfl hne
    | cons k rest =>
      unfold runBlockAttempts
      rw [(runBlockKind_multi k).2.1, (runBlockKind_multi k).1,
        runBlockAttempts_notMulti rest JSStatus.SingleTask (by simp)]
      rfl
  · cases ks with
    | nil => exact absurd rfl hne
    | cons k rest =>
      unfold runBlockAttempts
      rw [(runBlockKind_multi k).2.1,
        runBlockAttempts_notMulti rest JSStatus.SingleTask (by simp)]
  · intro k
    exact ⟨(runBlockKind_multi k).1, (runBlockKind_multi k).2.1⟩
  · intro st k h
    rw [runBlockKind_notMulti st k h]
    exact ⟨rfl, rfl, rfl⟩

/-- Witness for block_reply_throw_single_completion: a reply and a throw
racing for one suspension wake the engine exactly once. -/
theorem block_reply_throw_single_completion_witness :
    (runBlockAttempts JSStatus.MultiTask [BlockKind.reply, BlockKind.throwK]).2 = 1
    ∧ (runBlockAttempts JSStatus.MultiTask [BlockKind.reply, BlockKind.throwK]).1 =
        JSStatus.SingleTask :=
  have h := block_reply_throw_single_completion [BlockKind.reply, BlockKind.throwK] (by decide)
  ⟨h.1, h.2.1⟩

/-- C10: take changes no factory state besides the fetch-add on the
allocation id — size, free-queue length, the codes list and its sharing,
capacity and queue bound are untouched — and performs exactly one FFI
call: JS::new with the next allocation id, the factory name, a max heap of
zero (not the configured maxHeapSize) and no reuse slot; in particular no
bytecode load appears in its trace. -/
theorem take_spec (f : VMFactory) :
    (f.take).2 = [FfiCall.jsNew f.allocId f.name 0 false]
    ∧ (f.take).1 = { f with allocId := f.allocId + 1 }
    ∧ (f.take).1.allocId = f.allocId + 1
    ∧ (f.take).1.size = f.size
    ∧ (f.take).1.freeLen = f.freeLen
    ∧ (f.take).1.codes = f.codes
    ∧ (f.take).1.codesAliases = f.codesAliases
    ∧ (f.take).1.capacity = f.capacity
    ∧ (f.take).1.queueBound = f.queueBound
    ∧ (f.take).2.filter (fun c => match c with | FfiCall.load _ _ => true | _ => false) = [] :=
  ⟨rfl, rfl, rfl, rfl, rfl, rfl, rfl, rfl, rfl, rfl⟩
